import Mathlib

/-!
Shallow embedding of the wtf-server transcription core, translated from the
TypeScript sources, together with proofs about the behaviour of the
enrichment engine, the orchestrator, the batch route and the provider
response translations.

JavaScript numbers are modelled as rationals; decimal literals of the source
are written with mkRat (0.7 becomes mkRat 7 10, and so on).  Optional fields
and JavaScript undefined become Option; a JavaScript NaN produced by parseInt
is the none case of an inner Option.  Wall-clock effects (Date.now, the ISO
timestamp) enter as explicit parameters.  Network effects (audio download,
the ASR backend call) enter as explicit oracle functions.
-/

namespace WtfServer

/-! ### JavaScript primitives used by the sources -/

/-- Longest leading run of decimal digits of a character list. -/
def leadingDigits : List Char → List Char
  | [] => []
  | c :: cs => if c.isDigit then c :: leadingDigits cs else []

/-- Numeric value of a list of decimal digits. -/
def digitsToNat (l : List Char) : Nat :=
  l.foldl (fun a c => a * 10 + (c.toNat - 48)) 0

/-- Model of JavaScript parseInt(s, 10): an optional sign followed by the
longest digit prefix; none models the NaN result when no digit is found. -/
def jsParseInt (s : String) : Option Int :=
  match s.data with
  | '-' :: rest =>
      if leadingDigits rest = [] then none
      else some (-(digitsToNat (leadingDigits rest) : Int))
  | '+' :: rest =>
      if leadingDigits rest = [] then none
      else some ((digitsToNat (leadingDigits rest) : Int))
  | l =>
      if leadingDigits l = [] then none
      else some ((digitsToNat (leadingDigits l) : Int))

/-- Model of JavaScript String() on an integer-or-NaN number. -/
def jsIntToString : Option Int → String
  | some n => toString n
  | none => "NaN"

/-! ### Provider-neutral result types, from src/types/asr.ts -/

/-- Word-level timing (interface AsrWord). -/
structure AsrWord where
  word : String
  start : ℚ
  «end» : ℚ
  confidence : ℚ
  deriving Repr, DecidableEq

/-- Segment-level timing (interface AsrSegment). -/
structure AsrSegment where
  text : String
  start : ℚ
  «end» : ℚ
  confidence : ℚ
  speaker : Option String
  words : Option (List AsrWord)
  deriving Repr, DecidableEq

/-- Common transcription result (interface AsrTranscribeResult).  The
provider tag is kept as a plain string. -/
structure AsrTranscribeResult where
  text : String
  language : String
  duration : ℚ
  confidence : ℚ
  segments : List AsrSegment
  words : Option (List AsrWord)
  processingTime : ℚ
  provider : String
  model : Option String
  deriving Repr, DecidableEq

/-! ### Canonical transcription record types, from src/types/wtf.ts -/

/-- Canonical word record (interface WtfWord).  The speaker field holds the
value of the JavaScript expression seg.speaker ? parseInt(seg.speaker, 10) :
undefined, so the outer Option is the undefined case and the inner Option is
the NaN case. -/
structure WtfWord where
  id : Nat
  start : ℚ
  «end» : ℚ
  text : String
  confidence : ℚ
  speaker : Option (Option Int)
  is_punctuation : Bool
  deriving Repr, DecidableEq

/-- Canonical segment record (interface WtfSegment). -/
structure WtfSegment where
  id : Nat
  start : ℚ
  «end» : ℚ
  text : String
  confidence : ℚ
  speaker : Option (Option Int)
  words : Option (List Nat)
  deriving Repr, DecidableEq

/-- Canonical speaker aggregate (interface WtfSpeaker). -/
structure WtfSpeaker where
  id : Option Int
  label : String
  segments : List Nat
  total_time : ℚ
  deriving Repr, DecidableEq

/-- Quality block (interface WtfQuality, the fields the enricher sets). -/
structure WtfQuality where
  average_confidence : ℚ
  low_confidence_words : Nat
  multiple_speakers : Bool
  processing_warnings : List String
  deriving Repr, DecidableEq

/-- Audio metadata attached to the canonical record. -/
structure WtfAudioMetadata where
  duration : ℚ
  deriving Repr, DecidableEq

/-- Metadata block of the canonical record. -/
structure WtfMetadata where
  created_at : String
  processed_at : String
  provider : String
  model : Option String
  processing_time : ℚ
  audio : Option WtfAudioMetadata
  deriving Repr, DecidableEq

/-- Transcript summary of the canonical record. -/
structure WtfTranscript where
  text : String
  language : String
  duration : ℚ
  confidence : ℚ
  deriving Repr, DecidableEq

/-- Canonical transcription record (interface WtfTranscription).  The
speakers object is an association list keyed by the speaker string, in first
insertion order. -/
structure WtfTranscription where
  transcript : WtfTranscript
  segments : List WtfSegment
  metadata : WtfMetadata
  words : Option (List WtfWord)
  speakers : Option (List (String × WtfSpeaker))
  quality : WtfQuality
  deriving Repr, DecidableEq

/-- Input of the enricher (interface EnrichmentInput in vcon-enricher). -/
structure EnrichmentInput where
  dialogIndex : Nat
  transcription : AsrTranscribeResult
  provider : String
  model : Option String
  audioDuration : Option ℚ
  deriving Repr, DecidableEq

/-! ### Enrichment engine, from the vcon-enricher service -/

/-- Character class of the punctuation regex in createWtfTranscription. -/
def punctuationChars : List Char :=
  ['.', ',', '!', '?', ';', ':', '\'', '"', '(', ')', '-']

/-- Test of the anchored regex against a word text: true exactly when the
whole text is a single character of the class. -/
def isPunctuationText (s : String) : Bool :=
  match s.data with
  | [c] => punctuationChars.contains c
  | _ => false

/-- Value of the ternary seg.speaker ? parseInt(seg.speaker, 10) : undefined;
the empty string is falsy in JavaScript. -/
def parsedSpeaker (speaker : Option String) : Option (Option Int) :=
  match speaker with
  | some s => if s = "" then none else some (jsParseInt s)
  | none => none

/-- One pushed entry of the words array of createWtfTranscription. -/
def mkWtfWord (i : Nat) (speaker : Option (Option Int)) (w : AsrWord) : WtfWord :=
  { id := i
    start := w.start
    «end» := w.«end»
    text := w.word
    confidence := w.confidence
    speaker := speaker
    is_punctuation := isPunctuationText w.word }

/-- Words nested inside the segments, in segment order then in-segment
order, each paired with the parsed speaker of its segment. -/
def segmentNestedWords (segments : List AsrSegment) :
    List (Option (Option Int) × AsrWord) :=
  segments.flatMap fun seg =>
    match seg.words with
    | some ws => ws.map fun w => (parsedSpeaker seg.speaker, w)
    | none => []

/-- Words array of createWtfTranscription: top-level words when the field is
present (an empty array is truthy), otherwise the words flattened out of the
segments; ids are sequential from 0.  Top-level words carry no speaker. -/
def buildWords (t : AsrTranscribeResult) : List WtfWord :=
  match t.words with
  | some ws => ws.enum.map fun p => mkWtfWord p.1 none p.2
  | none => (segmentNestedWords t.segments).enum.map fun p => mkWtfWord p.1 p.2.1 p.2.2

/-- Containment test of the segment mapping: the word id is included when
w.start >= seg.start and w.end <= seg.end. -/
def wordInSegment (seg : AsrSegment) (w : WtfWord) : Bool :=
  decide (seg.start ≤ w.start ∧ w.«end» ≤ seg.«end»)

/-- Segments array of createWtfTranscription: sequential ids, the word-id
list of each segment, and the words field omitted when no word matches. -/
def buildSegments (t : AsrTranscribeResult) (words : List WtfWord) : List WtfSegment :=
  t.segments.enum.map fun p =>
    let seg := p.2
    let segmentWordIds := (words.filter (wordInSegment seg)).map WtfWord.id
    { id := p.1
      start := seg.start
      «end» := seg.«end»
      text := seg.text
      confidence := seg.confidence
      speaker := parsedSpeaker seg.speaker
      words := if segmentWordIds.length > 0 then some segmentWordIds else none }

/-- One step of the speakerSegments and speakerTimes accumulation: append the
segment id and add the speaking time under the given key, creating the entry
at the back on first sight of the key. -/
def addSpeakerSeg (acc : List (String × (List Nat × ℚ))) (key : String)
    (segId : Nat) (dur : ℚ) : List (String × (List Nat × ℚ)) :=
  match acc with
  | [] => [(key, ([segId], dur))]
  | (k, (ids, time)) :: rest =>
      if k = key then (k, (ids ++ [segId], time + dur)) :: rest
      else (k, (ids, time)) :: addSpeakerSeg rest key segId dur

/-- Accumulated per-speaker segment ids and total times, in first insertion
order, over the segments whose speaker field is not undefined. -/
def speakerAccum (segs : List WtfSegment) : List (String × (List Nat × ℚ)) :=
  segs.foldl
    (fun acc seg =>
      match seg.speaker with
      | some sp => addSpeakerSeg acc (jsIntToString sp) seg.id (seg.«end» - seg.start)
      | none => acc)
    []

/-- Speakers object of createWtfTranscription. -/
def buildSpeakers (segs : List WtfSegment) : List (String × WtfSpeaker) :=
  (speakerAccum segs).map fun p =>
    (p.1,
      { id := jsParseInt p.1
        label := "Speaker " ++ p.1
        segments := p.2.1
        total_time := p.2.2 })

/-- Fixed warning text of the quality block. -/
def lowConfidenceWarning : String := "High number of low-confidence words"

/-- createWtfTranscription from the vcon-enricher service; now is the ISO
timestamp taken at the enrichment instant. -/
def createWtfTranscription (input : EnrichmentInput) (now : String) : WtfTranscription :=
  let t := input.transcription
  let words := buildWords t
  let segments := buildSegments t words
  let speakers := buildSpeakers segments
  let lowConfidenceWords := (words.filter fun w => decide (w.confidence < mkRat 7 10)).length
  let quality : WtfQuality :=
    { average_confidence := t.confidence
      low_confidence_words := lowConfidenceWords
      multiple_speakers := decide (speakers.length > 1)
      processing_warnings :=
        if (lowConfidenceWords : ℚ) > (words.length : ℚ) * mkRat 1 10 then
          [lowConfidenceWarning]
        else [] }
  { transcript :=
      { text := t.text
        language := t.language
        duration := t.duration
        confidence := t.confidence }
    segments := segments
    metadata :=
      { created_at := now
        processed_at := now
        provider := input.provider
        model := input.model
        processing_time := t.processingTime / 1000
        audio :=
          match input.audioDuration with
          | some d => if d = 0 then none else some { duration := d }
          | none => none }
    words := if words.length > 0 then some words else none
    speakers := if speakers.length > 0 then some speakers else none
    quality := quality }

/-! ### vCon container types, from src/types/vcon.ts -/

/-- Civic address of a party. -/
structure CivicAddress where
  country : Option String
  a1 : Option String
  a2 : Option String
  a3 : Option String
  a4 : Option String
  a5 : Option String
  a6 : Option String
  prd : Option String
  pod : Option String
  sts : Option String
  hno : Option String
  hns : Option String
  lmk : Option String
  loc : Option String
  flr : Option String
  nam : Option String
  pc : Option String
  deriving Repr, DecidableEq

/-- Party, a participant of the conversation. -/
structure Party where
  tel : Option String
  mailto : Option String
  name : Option String
  stir : Option String
  validation : Option String
  uuid : Option String
  role : Option String
  gmlpos : Option String
  civicaddress : Option CivicAddress
  timezone : Option String
  contact_list : Option String
  deriving Repr, DecidableEq

/-- Party history event of a dialog. -/
structure PartyHistoryEvent where
  event : String
  party : Nat
  time : String
  deriving Repr, DecidableEq

/-- Dialog entry.  The type and encoding enumerations are kept as strings;
the schema constrains their values. -/
structure Dialog where
  type : String
  start : String
  duration : Option ℚ
  parties : Nat ⊕ List Nat
  originator : Option Nat
  mediatype : Option String
  filename : Option String
  body : Option String
  encoding : Option String
  url : Option String
  content_hash : Option (String ⊕ List String)
  disposition : Option String
  party_history : Option (List PartyHistoryEvent)
  campaign : Option String
  interaction_type : Option String
  interaction_id : Option String
  skill : Option String
  application : Option String
  message_id : Option String
  transferee : Option Nat
  transferor : Option Nat
  transfer_target : Option Nat
  original : Option Nat
  consultation : Option Nat
  target_dialog : Option Nat
  deriving Repr, DecidableEq

/-- Body of an analysis entry: either an opaque string or a canonical
transcription record (the enricher casts its WtfAnalysis into Analysis). -/
inductive AnalysisBody where
  | str : String → AnalysisBody
  | wtf : WtfTranscription → AnalysisBody
  deriving Repr, DecidableEq

/-- Analysis entry of the container. -/
structure Analysis where
  type : String
  dialog : Option (Nat ⊕ List Nat)
  mediatype : Option String
  filename : Option String
  vendor : String
  product : Option String
  schema : Option String
  body : Option AnalysisBody
  encoding : Option String
  url : Option String
  content_hash : Option (String ⊕ List String)
  deriving Repr, DecidableEq

/-- Attachment entry of the container. -/
structure Attachment where
  type : Option String
  start : Option String
  party : Option Nat
  mediatype : String
  filename : Option String
  body : Option String
  encoding : Option String
  url : Option String
  content_hash : Option (String ⊕ List String)
  dialog : Option Nat
  deriving Repr, DecidableEq

/-- Reference to a related container (group, redacted and appended entries);
the optional nested container of the source is not carried because nothing
under proof reads it. -/
structure VconRef where
  uuid : String
  url : Option String
  deriving Repr, DecidableEq

/-- Main container (interface Vcon): dialog, analysis and attachments are
optional before normalization. -/
structure Vcon where
  vcon : String
  uuid : String
  created_at : String
  updated_at : Option String
  subject : Option String
  parties : List Party
  dialog : Option (List Dialog)
  analysis : Option (List Analysis)
  attachments : Option (List Attachment)
  group : Option (List VconRef)
  redacted : Option VconRef
  appended : Option VconRef
  deriving Repr, DecidableEq

/-- Container with guaranteed arrays (interface NormalizedVcon). -/
structure NormalizedVcon where
  vcon : String
  uuid : String
  created_at : String
  updated_at : Option String
  subject : Option String
  parties : List Party
  dialog : List Dialog
  analysis : List Analysis
  attachments : List Attachment
  group : Option (List VconRef)
  redacted : Option VconRef
  appended : Option VconRef
  deriving Repr, DecidableEq

/-- Forgetting normalization: the arrays become present optional fields. -/
def NormalizedVcon.toVcon (n : NormalizedVcon) : Vcon :=
  { vcon := n.vcon
    uuid := n.uuid
    created_at := n.created_at
    updated_at := n.updated_at
    subject := n.subject
    parties := n.parties
    dialog := some n.dialog
    analysis := some n.analysis
    attachments := some n.attachments
    group := n.group
    redacted := n.redacted
    appended := n.appended }

/-! ### Audio utilities, from src/utils/audio.ts -/

/-- Supported audio MIME types. -/
def SUPPORTED_AUDIO_TYPES : List String :=
  ["audio/wav", "audio/wave", "audio/x-wav", "audio/mp3", "audio/mpeg",
   "audio/flac", "audio/ogg", "audio/webm", "audio/x-m4a", "audio/mp4"]

/-- Whether a media type is a supported audio format. -/
def isSupportedAudioType (mediatype : String) : Bool :=
  SUPPORTED_AUDIO_TYPES.contains mediatype

/-- Whether a dialog contains audio: recording type, a present non-empty
media type (the empty string is falsy), and a supported format. -/
def isAudioDialog (dialog : Dialog) : Bool :=
  if dialog.type ≠ "recording" then false
  else
    match dialog.mediatype with
    | none => false
    | some mt => if mt = "" then false else isSupportedAudioType mt

/-! ### Parser and normalizer, from the vcon-parser service -/

/-- Path and message of one structural validation error. -/
structure PathMessage where
  path : String
  message : String
  deriving Repr, DecidableEq

/-- Verdict of the Zod schema on the raw input.  The schema semantics
(version pattern, uuid and timestamp formats, required fields, mutual
exclusivity) live in the zod library; the embedding takes the verdict as
the input: a valid case carries the parsed container, an invalid case
carries the per-field error list the parser formats. -/
inductive VconInput where
  | valid : Vcon → VconInput
  | invalid : List PathMessage → VconInput
  deriving Repr, DecidableEq

/-- normalizeVcon: fill the three optional collections with empty arrays,
spreading every other field unchanged. -/
def normalizeVcon (vcon : Vcon) : NormalizedVcon :=
  { vcon := vcon.vcon
    uuid := vcon.uuid
    created_at := vcon.created_at
    updated_at := vcon.updated_at
    subject := vcon.subject
    parties := vcon.parties
    dialog := vcon.dialog.getD []
    analysis := vcon.analysis.getD []
    attachments := vcon.attachments.getD []
    group := vcon.group
    redacted := vcon.redacted
    appended := vcon.appended }

/-- Audio-bearing dialog entries with their indices, as computed in
parseVcon by map then filter. -/
def audioDialogsOf (v : NormalizedVcon) : List (Nat × Dialog) :=
  v.dialog.enum.filter fun p => isAudioDialog p.2

/-- Result of parseVcon. -/
inductive VconParseResult where
  | ok : NormalizedVcon → List (Nat × Dialog) → VconParseResult
  | fail : String → Option (List PathMessage) → VconParseResult
  deriving Repr, DecidableEq

/-- parseVcon: a schema failure is reported with the formatted details, a
success normalizes and selects the audio dialogs. -/
def parseVcon : VconInput → VconParseResult
  | .invalid errs => .fail "Invalid VCON format" (some errs)
  | .valid v =>
      let vcon := normalizeVcon v
      .ok vcon (audioDialogsOf vcon)

/-! ### Audio extraction, from the audio-extractor service -/

/-- Outcome of extractAudioFromDialog for one dialog, viewed as an oracle:
the byte-level decoding and the URL download are external collaborators.
ok carries the raw bytes and declared media type, nothing is the null
return, thrown is a raised error with its message. -/
inductive ExtractOutcome where
  | ok : List Nat → String → ExtractOutcome
  | nothing : ExtractOutcome
  | thrown : String → ExtractOutcome
  deriving Repr, DecidableEq

/-- Extracted audio of one dialog (interface ExtractedAudio). -/
structure ExtractedAudio where
  dialogIndex : Nat
  buffer : List Nat
  mediatype : String
  duration : Option ℚ
  deriving Repr, DecidableEq

/-- Extraction error of one dialog (interface ExtractionError). -/
structure ExtractionError where
  dialogIndex : Nat
  error : String
  deriving Repr, DecidableEq

/-- Result of extractAudioFromDialogs (interface ExtractionResult). -/
structure ExtractionResult where
  extracted : List ExtractedAudio
  errors : List ExtractionError
  skipped : List Nat
  deriving Repr, DecidableEq

/-- Concatenation of extraction results, in processing order. -/
def ExtractionResult.append (a b : ExtractionResult) : ExtractionResult :=
  { extracted := a.extracted ++ b.extracted
    errors := a.errors ++ b.errors
    skipped := a.skipped ++ b.skipped }

/-- One iteration of the extraction loop over an indexed dialog. -/
def extractOne (maxAudioSizeMb : Nat) (extract : Nat → Dialog → ExtractOutcome)
    (idx : Nat) (d : Dialog) : ExtractionResult :=
  if ¬ isAudioDialog d then { extracted := [], errors := [], skipped := [idx] }
  else
    match extract idx d with
    | .thrown msg => { extracted := [], errors := [⟨idx, msg⟩], skipped := [] }
    | .nothing =>
        { extracted := [], errors := [⟨idx, "Failed to extract audio content"⟩], skipped := [] }
    | .ok buf mt =>
        if buf.length > maxAudioSizeMb * 1024 * 1024 then
          { extracted := []
            errors := [⟨idx, "Audio exceeds maximum size of " ++ toString maxAudioSizeMb ++ "MB"⟩]
            skipped := [] }
        else
          { extracted := [⟨idx, buf, mt, d.duration⟩], errors := [], skipped := [] }

/-- extractAudioFromDialogs: process the indexed dialogs in order,
partitioning them into extracted, errors and skipped. -/
def extractAudioFromDialogs (maxAudioSizeMb : Nat)
    (extract : Nat → Dialog → ExtractOutcome) :
    List (Nat × Dialog) → ExtractionResult
  | [] => { extracted := [], errors := [], skipped := [] }
  | (idx, d) :: rest =>
      (extractOne maxAudioSizeMb extract idx d).append
        (extractAudioFromDialogs maxAudioSizeMb extract rest)

/-! ### Enricher entry points, from the vcon-enricher service -/

/-- createWtfAnalysis: wrap the canonical record into an analysis entry. -/
def createWtfAnalysis (dialogIndex : Nat) (wtf : WtfTranscription)
    (provider : String) (model : Option String) : Analysis :=
  { type := "wtf_transcription"
    dialog := some (Sum.inl dialogIndex)
    mediatype := some "application/json"
    filename := none
    vendor := provider
    product := some (model.getD provider)
    schema := some "wtf-1.0"
    body := some (AnalysisBody.wtf wtf)
    encoding := some "json"
    url := none
    content_hash := none }

/-- enrichVconWithTranscriptions: append one analysis entry per enrichment
input, in the given order, and stamp updated_at. -/
def enrichVconWithTranscriptions (vcon : NormalizedVcon)
    (enrichments : List EnrichmentInput) (now : String) : NormalizedVcon :=
  let newAnalyses := enrichments.map fun input =>
    createWtfAnalysis input.dialogIndex (createWtfTranscription input now)
      input.provider input.model
  { vcon with
    updated_at := some now
    analysis := vcon.analysis ++ newAnalyses }

/-! ### Orchestrator, from the transcription service -/

/-- Request sent to a provider (interface AsrTranscribeRequest with its
options object). -/
structure AsrTranscribeOptions where
  wordTimestamps : Bool
  speakerDiarization : Bool
  punctuation : Bool
  deriving Repr, DecidableEq

/-- Provider transcription request. -/
structure AsrTranscribeRequest where
  audioBuffer : List Nat
  mediatype : String
  language : Option String
  options : AsrTranscribeOptions
  deriving Repr, DecidableEq

/-- Statistics of a successful pipeline run; the wall-clock total time of
the source is not modelled. -/
structure TranscriptionStats where
  dialogsProcessed : Nat
  dialogsSkipped : Nat
  dialogsFailed : Nat
  provider : String
  model : Option String
  deriving Repr, DecidableEq

/-- Successful pipeline result. -/
structure TranscriptionSuccess where
  vcon : NormalizedVcon
  stats : TranscriptionStats
  deriving Repr, DecidableEq

/-- Pipeline result: the declared success and failure shapes of the source,
plus a thrown case modelling a rejected promise escaping transcribeVcon
(the batch dispatch is not wrapped in try/catch). -/
inductive TranscriptionResult where
  | success : TranscriptionSuccess → TranscriptionResult
  | failure : String → Option (List PathMessage) → TranscriptionResult
  | thrown : TranscriptionResult
  deriving Repr, DecidableEq

/-- Apostrophe as a string, for building quoted error messages. -/
def quoteMark : String := String.mk ['\'']

/-- transcribeVcon: the full pipeline.  providerConfigured is the verdict of
the resolved provider's isConfigured; extract is the per-dialog audio
extraction oracle; batchTranscribe is the provider batch call, none meaning
a rejected promise; wordTimestamps, speakerDiarization and language are the
request options; now stamps the enrichment. -/
def transcribeVcon (providerConfigured : Bool) (providerName : String)
    (maxAudioSizeMb : Nat) (extract : Nat → Dialog → ExtractOutcome)
    (batchTranscribe : List AsrTranscribeRequest → Option (List AsrTranscribeResult))
    (wordTimestamps speakerDiarization : Option Bool) (language : Option String)
    (input : VconInput) (now : String) : TranscriptionResult :=
  if ¬ providerConfigured then
    .failure ("ASR provider " ++ quoteMark ++ providerName ++ quoteMark ++
      " is not configured. Check environment variables.") none
  else
    match parseVcon input with
    | .fail e d => .failure e d
    | .ok vcon audioDialogs =>
        if audioDialogs.length = 0 then
          .failure "No audio dialogs found in VCON" none
        else
          let extraction := extractAudioFromDialogs maxAudioSizeMb extract audioDialogs
          if extraction.extracted.length = 0 then
            .failure "Failed to extract audio from any dialog"
              (some (extraction.errors.map fun e =>
                ⟨"dialog[" ++ toString e.dialogIndex ++ "]", e.error⟩))
          else
            let requests := extraction.extracted.map fun a =>
              ({ audioBuffer := a.buffer
                 mediatype := a.mediatype
                 language := language
                 options :=
                   { wordTimestamps := wordTimestamps.getD true
                     speakerDiarization := speakerDiarization.getD false
                     punctuation := true } } : AsrTranscribeRequest)
            match batchTranscribe requests with
            | none => .thrown
            | some batchResults =>
                if batchResults.length < extraction.extracted.length then
                  .thrown
                else
                  let enrichments := (extraction.extracted.zip batchResults).map fun p =>
                    ({ dialogIndex := p.1.dialogIndex
                       transcription := p.2
                       provider := p.2.provider
                       model := p.2.model
                       audioDuration := p.1.duration } : EnrichmentInput)
                  .success
                    { vcon := enrichVconWithTranscriptions vcon enrichments now
                      stats :=
                        { dialogsProcessed := enrichments.length
                          dialogsSkipped := extraction.skipped.length
                          dialogsFailed := extraction.errors.length
                          provider := providerName
                          model :=
                            ((extraction.extracted.zip batchResults).head?).bind
                              fun p => p.2.model } }

/-! ### Batch route handler, from the transcription routes -/

/-- One element of the batch response results array. -/
structure BatchItemRecord where
  success : Bool
  vcon : Option NormalizedVcon
  error : Option String
  details : Option (List PathMessage)
  deriving Repr, DecidableEq

/-- Summary of the batch response. -/
structure BatchSummary where
  total : Nat
  succeeded : Nat
  failed : Nat
  provider : String
  deriving Repr, DecidableEq

/-- Batch response body. -/
structure BatchResponse where
  results : List BatchItemRecord
  summary : BatchSummary
  deriving Repr, DecidableEq

/-- Whether a pipeline outcome is a rejected promise. -/
def TranscriptionResult.isThrown : TranscriptionResult → Bool
  | .thrown => true
  | _ => false

/-- Record built by the handler for one document's outcome; the thrown case
never reaches this point because the overall Promise.all rejects first. -/
def recordOf : TranscriptionResult → BatchItemRecord
  | .success s => { success := true, vcon := some s.vcon, error := none, details := none }
  | .failure e d => { success := false, vcon := none, error := some e, details := d }
  | .thrown => { success := false, vcon := none, error := none, details := none }

/-- Batch route handler: run every document through the pipeline, collect
one record per input position, and summarize.  A rejected promise of any
document rejects the whole Promise.all, which the framework turns into an
error response with no results, modelled as none. -/
def transcribeBatchRoute {α : Type} (runOne : α → TranscriptionResult)
    (providerOpt : Option String) (vcons : List α) : Option BatchResponse :=
  if vcons.any (fun d => (runOne d).isThrown) then none
  else
    let results := vcons.map fun d => recordOf (runOne d)
    let succeeded := (results.filter fun r => r.success).length
    some
      { results := results
        summary :=
          { total := results.length
            succeeded := succeeded
            failed := results.length - succeeded
            provider := providerOpt.getD "nvidia" } }

/-! ### NVIDIA provider response translation, from src/providers/nvidia.ts -/

/-- Word timing of the native NVIDIA response. -/
structure NvidiaWord where
  word : String
  start_time : ℚ
  end_time : ℚ
  confidence : ℚ
  deriving Repr, DecidableEq

/-- Segment of the native NVIDIA response. -/
structure NvidiaSegment where
  text : String
  start_time : ℚ
  end_time : ℚ
  confidence : ℚ
  speaker : Option String
  words : Option (List NvidiaWord)
  deriving Repr, DecidableEq

/-- Native NVIDIA transcription response. -/
structure NvidiaTranscribeResponse where
  text : String
  language : String
  duration : ℚ
  segments : Option (List NvidiaSegment)
  words : Option (List NvidiaWord)
  confidence : Option ℚ
  deriving Repr, DecidableEq

/-- transformResponse of the NVIDIA provider: confidence is the reported
value defaulted to 0, recomputed as the unweighted per-segment average when
that value is falsy and segments are present and non-empty; segments and
words are field-renamed copies. -/
def NvidiaAsrProvider.transformResponse (defaultModel : String)
    (response : NvidiaTranscribeResponse) (processingTime : ℚ) : AsrTranscribeResult :=
  let c0 := response.confidence.getD 0
  let segs := response.segments.getD []
  let confidence :=
    if c0 = 0 ∧ segs ≠ [] then
      (segs.map NvidiaSegment.confidence).sum / (segs.length : ℚ)
    else c0
  let segments : List AsrSegment := segs.map fun seg =>
    { text := seg.text
      start := seg.start_time
      «end» := seg.end_time
      confidence := seg.confidence
      speaker := seg.speaker
      words := seg.words.map (List.map fun w =>
        ({ word := w.word
           start := w.start_time
           «end» := w.end_time
           confidence := w.confidence } : AsrWord)) }
  let words := response.words.map (List.map fun w =>
    ({ word := w.word
       start := w.start_time
       «end» := w.end_time
       confidence := w.confidence } : AsrWord))
  { text := response.text
    language := response.language
    duration := response.duration
    confidence := confidence
    segments := segments
    words := words
    processingTime := processingTime
    provider := "nvidia"
    model := some defaultModel }

/-! ### Groq provider response translation, from src/providers/groq.ts -/

/-- Word of the native Groq verbose response. -/
structure GroqWord where
  word : String
  start : ℚ
  «end» : ℚ
  deriving Repr, DecidableEq

/-- Segment of the native Groq verbose response. -/
structure GroqSegment where
  id : Int
  seek : ℚ
  start : ℚ
  «end» : ℚ
  text : String
  tokens : List Int
  temperature : ℚ
  avg_logprob : ℚ
  compression_ratio : ℚ
  no_speech_prob : ℚ
  deriving Repr, DecidableEq

/-- Native Groq verbose response. -/
structure GroqVerboseResponse where
  task : String
  language : String
  duration : ℚ
  text : String
  words : Option (List GroqWord)
  segments : Option (List GroqSegment)
  deriving Repr, DecidableEq

/-- transformResponse of the Groq provider.  Math.exp is passed as a
function parameter since the embedding carries exact rationals; each
segment confidence is min (exp avg_logprob) 1, word confidence is the fixed
0.95, and the overall confidence is the unweighted segment average,
defaulting to 0.95 when there are no segments. -/
def GroqAsrProvider.transformResponse (model : String) (exp : ℚ → ℚ)
    (response : GroqVerboseResponse) (processingTime : ℚ) : AsrTranscribeResult :=
  let words : Option (List AsrWord) := response.words.map (List.map fun w =>
    ({ word := w.word
       start := w.start
       «end» := w.«end»
       confidence := mkRat 95 100 } : AsrWord))
  let segments : List AsrSegment :=
    ((response.segments.map (List.map fun seg =>
      let segmentWords := words.map (List.filter fun w =>
        decide (w.start ≥ seg.start ∧ w.«end» ≤ seg.«end»))
      let confidence := exp seg.avg_logprob
      ({ text := seg.text.trim
         start := seg.start
         «end» := seg.«end»
         confidence := min confidence 1
         speaker := none
         words := segmentWords } : AsrSegment))).getD [])
  let confidence :=
    if segments.length > 0 then
      (segments.map AsrSegment.confidence).sum / (segments.length : ℚ)
    else mkRat 95 100
  { text := response.text.trim
    language := response.language
    duration := response.duration
    confidence := confidence
    segments := segments
    words := words
    processingTime := processingTime
    provider := "groq"
    model := some model }

/-! ### Spec-side definitions used to state the claims -/

/-- The eleven single-character punctuation tokens named by the
specification, as strings. -/
def punctuationTokens : List String :=
  punctuationChars.map fun c => String.mk [c]

/-- Pre-flattened top-level word data of a result whose words appear only
nested inside segments: the same words, in segment order then in-segment
order. -/
def flattenedNestedWords (t : AsrTranscribeResult) : List AsrWord :=
  (segmentNestedWords t.segments).map Prod.snd

/-! ### Concrete inputs used by witnesses and counterexamples -/

/-- Word spelled d o n apostrophe t. -/
def dontText : String := String.mk ['d', 'o', 'n', '\'', 't']

/-- Enrichment input with two top-level words, a comma and a contraction. -/
def c5In : EnrichmentInput :=
  { dialogIndex := 0
    transcription :=
      { text := "x"
        language := "en"
        duration := 1
        confidence := 1
        segments := []
        words := some [⟨",", 0, 1, 1⟩, ⟨dontText, 1, 2, 1⟩]
        processingTime := 0
        provider := "nvidia"
        model := none }
    provider := "nvidia"
    model := none
    audioDuration := none }

/-- Result with one speaker-tagged segment carrying one nested word. -/
def c2In : EnrichmentInput :=
  { dialogIndex := 0
    transcription :=
      { text := "hi"
        language := "en"
        duration := 1
        confidence := 1
        segments :=
          [{ text := "hi"
             start := 0
             «end» := 1
             confidence := 1
             speaker := some "1"
             words := some [⟨"hi", 0, 1, 1⟩] }]
        words := none
        processingTime := 0
        provider := "nvidia"
        model := none }
    provider := "nvidia"
    model := none
    audioDuration := none }

/-- Enrichment input with one segment containing one in-range word. -/
def c6In : EnrichmentInput :=
  { dialogIndex := 0
    transcription :=
      { text := "hi"
        language := "en"
        duration := 10
        confidence := 1
        segments :=
          [{ text := "hi"
             start := 0
             «end» := 10
             confidence := 1
             speaker := none
             words := none }]
        words := some [⟨"hi", 1, 2, 1⟩]
        processingTime := 0
        provider := "nvidia"
        model := none }
    provider := "nvidia"
    model := none
    audioDuration := none }

/-- The first canonical segment built from c6In: the single word with id 0
lies inside the segment. -/
def c6Seg : WtfSegment :=
  { id := 0
    start := 0
    «end» := 10
    text := "hi"
    confidence := 1
    speaker := none
    words := some [0] }

/-- Valid container with one extractable recording dialog. -/
def c1Vcon : Vcon :=
  { vcon := "0.0.2"
    uuid := "019371a4-1234-7000-8000-000000000001"
    created_at := "2024-01-15T10:30:00.000Z"
    updated_at := none
    subject := none
    parties := [{ tel := none, mailto := none, name := some "Test", stir := none,
                  validation := none, uuid := none, role := none, gmlpos := none,
                  civicaddress := none, timezone := none, contact_list := none }]
    dialog :=
      some [{ type := "recording"
              start := "2024-01-15T10:30:00.000Z"
              duration := some 3
              parties := Sum.inl 0
              originator := none
              mediatype := some "audio/wav"
              filename := none
              body := some "AAAA"
              encoding := some "base64url"
              url := none
              content_hash := none
              disposition := none
              party_history := none
              campaign := none
              interaction_type := none
              interaction_id := none
              skill := none
              application := none
              message_id := none
              transferee := none
              transferor := none
              transfer_target := none
              original := none
              consultation := none
              target_dialog := none }]
    analysis := none
    attachments := none
    group := none
    redacted := none
    appended := none }

/-- Valid container whose only dialog is an audio recording with neither an
inline body nor a url, so the real extractor returns null for it. -/
def c1BadVcon : Vcon :=
  { c1Vcon with
    dialog :=
      some [{ type := "recording"
              start := "2024-01-15T10:30:00.000Z"
              duration := some 3
              parties := Sum.inl 0
              originator := none
              mediatype := some "audio/wav"
              filename := none
              body := none
              encoding := none
              url := none
              content_hash := none
              disposition := none
              party_history := none
              campaign := none
              interaction_type := none
              interaction_id := none
              skill := none
              application := none
              message_id := none
              transferee := none
              transferor := none
              transfer_target := none
              original := none
              consultation := none
              target_dialog := none }] }

/-- Valid container with no dialog entries at all. -/
def c3Vcon : Vcon :=
  { c1Vcon with dialog := some [] }

/-- Extraction oracle returning fixed bytes for every dialog. -/
def okExtract : Nat → Dialog → ExtractOutcome :=
  fun _ _ => .ok [0, 0, 0, 0] "audio/wav"

/-- Extraction oracle returning null for every dialog, as the real extractor
does for an audio dialog with neither body nor url. -/
def nullExtract : Nat → Dialog → ExtractOutcome :=
  fun _ _ => .nothing

/-- Fixed provider-neutral result used by the reachable-backend oracles. -/
def fixedResult : AsrTranscribeResult :=
  { text := "hello"
    language := "en-US"
    duration := 3
    confidence := 1
    segments := []
    words := none
    processingTime := 500
    provider := "nvidia"
    model := some "parakeet-tdt-1.1b" }

/-- Reachable backend: one fixed result per request. -/
def okBatch : List AsrTranscribeRequest → Option (List AsrTranscribeResult) :=
  fun reqs => some (reqs.map fun _ => fixedResult)

/-- Normalized container used by the batch-route witness. -/
def c4Vcon : NormalizedVcon := normalizeVcon c3Vcon

/-- Pipeline outcomes of the batch-route witness: document 0 succeeds,
document 1 fails schema validation on a missing uuid. -/
def c4Run : Nat → TranscriptionResult :=
  fun d =>
    if d = 0 then
      .success
        { vcon := c4Vcon
          stats :=
            { dialogsProcessed := 1
              dialogsSkipped := 0
              dialogsFailed := 0
              provider := "nvidia"
              model := some "parakeet-tdt-1.1b" } }
    else .failure "Invalid VCON format" (some [⟨"uuid", "Required"⟩])

/-- NVIDIA response reporting confidence one half. -/
def c8NvResp : NvidiaTranscribeResponse :=
  { text := "x"
    language := "en"
    duration := 1
    segments := none
    words := none
    confidence := some (mkRat 1 2) }

/-- NVIDIA response reporting confidence zero with one segment of
confidence one. -/
def c8ZeroResp : NvidiaTranscribeResponse :=
  { text := "x"
    language := "en"
    duration := 1
    segments := some [{ text := "x", start_time := 0, end_time := 1,
                        confidence := 1, speaker := none, words := none }]
    words := none
    confidence := some 0 }

/-- Groq response with one segment. -/
def c8GroqResp : GroqVerboseResponse :=
  { task := "transcribe"
    language := "en"
    duration := 1
    text := "x"
    words := none
    segments := some [{ id := 0, seek := 0, start := 0, «end» := 1, text := "x",
                        tokens := [], temperature := 0, avg_logprob := 0,
                        compression_ratio := 1, no_speech_prob := 0 }] }

/-- Enrichment input whose transcription has one segment fully containing
its single top-level word. -/
def c10In : EnrichmentInput := c6In

/-- Enrichment input with two segments tagged with speakers 0 and 1. -/
def c7In : EnrichmentInput :=
  { dialogIndex := 0
    transcription :=
      { text := "hello. hi there."
        language := "en-US"
        duration := 4
        confidence := 1
        segments :=
          [{ text := "hello."
             start := 0
             «end» := 1
             confidence := 1
             speaker := some "0"
             words := none },
           { text := "hi there."
             start := 2
             «end» := 4
             confidence := 1
             speaker := some "1"
             words := none }]
        words := none
        processingTime := 0
        provider := "nvidia"
        model := none }
    provider := "nvidia"
    model := none
    audioDuration := none }

/-! ### Helper lemmas -/

/-- Indexing an enumerated-then-mapped list evaluates the function at the
position and the element. -/
theorem get_enum_map {β γ : Type} (l : List β) (f : Nat × β → γ) (i : Nat)
    (h : i < (l.enum.map f).length) :
    (l.enum.map f).get ⟨i, h⟩
      = f (i, l.get ⟨i, by simpa using h⟩) := by
  have h1 : i < l.enum.length := by simpa using h
  have h2 : i < l.length := by simpa using h
  simp [List.get_eq_getElem, List.getElem_map, List.getElem_enum]

/-- Projections of an enumerated-then-mapped list that return the position
give the range of positions. -/
theorem map_proj_enum_map {β γ : Type} (l : List β) (g : Nat → β → γ)
    (proj : γ → Nat) (hg : ∀ n b, proj (g n b) = n) :
    ((l.enum.map fun p => g p.1 p.2).map proj) = List.range l.length := by
  have h1 : ((l.enum.map fun p => g p.1 p.2).map proj)
      = l.enum.map fun p => p.1 := by
    rw [List.map_map]
    exact List.map_congr_left fun p _ => hg p.1 p.2
  rw [h1]
  have h2 : (l.enum.map fun p => p.1) = l.enum.map Prod.fst := rfl
  rw [h2, List.enum_map_fst]

/-- Every word the enricher builds records the punctuation test of its own
text. -/
theorem mem_buildWords_flag (t : AsrTranscribeResult) (w : WtfWord)
    (hw : w ∈ buildWords t) : w.is_punctuation = isPunctuationText w.text := by
  unfold buildWords at hw
  cases ht : t.words with
  | some ws =>
      rw [ht] at hw
      obtain ⟨p, _, rfl⟩ := List.mem_map.mp hw
      rfl
  | none =>
      rw [ht] at hw
      obtain ⟨p, _, rfl⟩ := List.mem_map.mp hw
      rfl

/-- The anchored single-character regex test agrees with membership in the
token list. -/
theorem isPunctuationText_iff (s : String) :
    isPunctuationText s = true ↔ s ∈ punctuationTokens := by
  obtain ⟨l⟩ := s
  constructor
  · intro h
    match l, h with
    | [c], h =>
        unfold punctuationTokens
        refine List.mem_map.mpr ⟨c, ?_, rfl⟩
        have : punctuationChars.contains c = true := by
          simpa [isPunctuationText] using h
        simpa using this
  · intro h
    unfold punctuationTokens at h
    obtain ⟨c, hc, he⟩ := List.mem_map.mp h
    have hl : l = [c] := by
      have := congrArg String.data he
      simpa using this.symm
    subst hl
    simpa [isPunctuationText] using hc

/-- Words field of the canonical record: none exactly for the empty list,
otherwise the built list itself. -/
theorem createWtf_words_eq (input : EnrichmentInput) (now : String) :
    (createWtfTranscription input now).words
      = if (buildWords input.transcription).length > 0
        then some (buildWords input.transcription) else none := rfl

/-! ### C9 -/

/-- C9: normalizeVcon is idempotent (re-normalizing an already normalized
container gives it back), total and pure, fills the absent dialog, analysis
and attachments collections with empty arrays, and leaves every other field
unchanged. -/
theorem c9_normalize_idempotent :
    (∀ n : NormalizedVcon, normalizeVcon (NormalizedVcon.toVcon n) = n) ∧
    (∀ v : Vcon,
      (normalizeVcon v).dialog = v.dialog.getD [] ∧
      (normalizeVcon v).analysis = v.analysis.getD [] ∧
      (normalizeVcon v).attachments = v.attachments.getD [] ∧
      NormalizedVcon.toVcon (normalizeVcon v) =
        { v with
          dialog := some (v.dialog.getD [])
          analysis := some (v.analysis.getD [])
          attachments := some (v.attachments.getD []) }) := by
  constructor
  · intro n
    cases n
    rfl
  · intro v
    exact ⟨rfl, rfl, rfl, rfl⟩

/-! ### C5 -/

/-- C5: a word emitted by enrichment is flagged as punctuation exactly when
its full text equals one of the eleven single punctuation tokens
(whole-token equality, not substring matching). -/
theorem c5_is_punctuation_iff_token (input : EnrichmentInput) (now : String)
    (ws : List WtfWord) (hws : (createWtfTranscription input now).words = some ws)
    (w : WtfWord) (hw : w ∈ ws) :
    w.is_punctuation = true ↔ w.text ∈ punctuationTokens := by
  rw [createWtf_words_eq] at hws
  have hmem : w ∈ buildWords input.transcription := by
    by_cases h : (buildWords input.transcription).length > 0
    · rw [if_pos h] at hws
      cases hws
      exact hw
    · rw [if_neg h] at hws
      cases hws
  rw [mem_buildWords_flag input.transcription w hmem]
  exact isPunctuationText_iff w.text

/-- C5 witness: the comma word built from c5In is flagged as punctuation,
the contraction with an inner apostrophe is not. -/
theorem c5_witness :
    (⟨0, 0, 1, ",", 1, none, true⟩ : WtfWord).is_punctuation = true ∧
    (⟨1, 1, 2, dontText, 1, none, false⟩ : WtfWord).is_punctuation = false := by
  have h0 := c5_is_punctuation_iff_token c5In "2024-01-15T10:30:00.000Z"
    [⟨0, 0, 1, ",", 1, none, true⟩, ⟨1, 1, 2, dontText, 1, none, false⟩]
    (by decide) ⟨0, 0, 1, ",", 1, none, true⟩ (by decide)
  have h1 := c5_is_punctuation_iff_token c5In "2024-01-15T10:30:00.000Z"
    [⟨0, 0, 1, ",", 1, none, true⟩, ⟨1, 1, 2, dontText, 1, none, false⟩]
    (by decide) ⟨1, 1, 2, dontText, 1, none, false⟩ (by decide)
  constructor
  · exact h0.mpr (by decide)
  · exact Bool.eq_false_iff.mpr fun hc => absurd (h1.mp hc) (by decide)

/-! ### C7 -/

/-- Speakers field of the canonical record, unfolded. -/
theorem createWtf_speakers_eq (input : EnrichmentInput) (now : String) :
    (createWtfTranscription input now).speakers
      = if (buildSpeakers (buildSegments input.transcription
            (buildWords input.transcription))).length > 0
        then some (buildSpeakers (buildSegments input.transcription
            (buildWords input.transcription)))
        else none := rfl

/-- Quality field of the canonical record, unfolded. -/
theorem createWtf_quality_eq (input : EnrichmentInput) (now : String) :
    (createWtfTranscription input now).quality
      = { average_confidence := input.transcription.confidence
          low_confidence_words := ((buildWords input.transcription).filter fun w =>
            decide (w.confidence < mkRat 7 10)).length
          multiple_speakers := decide ((buildSpeakers (buildSegments input.transcription
            (buildWords input.transcription))).length > 1)
          processing_warnings :=
            if ((((buildWords input.transcription).filter fun w =>
                  decide (w.confidence < mkRat 7 10)).length : ℚ))
                > ((buildWords input.transcription).length : ℚ) * mkRat 1 10 then
              [lowConfidenceWarning]
            else [] } := rfl

/-- C7: in the quality block, average confidence is the result's own overall
confidence, the low-confidence count is the number of words below 0.7, the
multiple-speakers flag holds exactly when the derived speaker map has more
than one entry, and the warnings list is non-empty (and then equal to the
one fixed warning) exactly when the low-confidence count exceeds a tenth of
the word count. -/
theorem c7_quality_block (input : EnrichmentInput) (now : String) :
    (createWtfTranscription input now).quality.average_confidence
      = input.transcription.confidence ∧
    (createWtfTranscription input now).quality.low_confidence_words
      = ((buildWords input.transcription).filter fun w =>
          decide (w.confidence < mkRat 7 10)).length ∧
    ((createWtfTranscription input now).quality.multiple_speakers = true ↔
      1 < ((createWtfTranscription input now).speakers.getD []).length) ∧
    ((createWtfTranscription input now).quality.processing_warnings ≠ [] ↔
      ((((buildWords input.transcription).filter fun w =>
          decide (w.confidence < mkRat 7 10)).length : ℚ)
        > ((buildWords input.transcription).length : ℚ) * mkRat 1 10)) ∧
    ((createWtfTranscription input now).quality.processing_warnings ≠ [] →
      (createWtfTranscription input now).quality.processing_warnings
        = [lowConfidenceWarning]) := by
  refine ⟨rfl, rfl, ?_, ?_, ?_⟩
  · rw [createWtf_quality_eq, createWtf_speakers_eq]
    by_cases h : (buildSpeakers (buildSegments input.transcription
        (buildWords input.transcription))).length > 0
    · simp only [if_pos h, Option.getD_some]
      simp
    · have h0 : (buildSpeakers (buildSegments input.transcription
          (buildWords input.transcription))).length = 0 := by omega
      simp only [if_neg h, Option.getD_none]
      simp [h0]
  · rw [createWtf_quality_eq]
    by_cases hc : ((((buildWords input.transcription).filter fun w =>
          decide (w.confidence < mkRat 7 10)).length : ℚ))
        > ((buildWords input.transcription).length : ℚ) * mkRat 1 10
    · simp [hc]
    · simp [hc]
  · rw [createWtf_quality_eq]
    by_cases hc : ((((buildWords input.transcription).filter fun w =>
          decide (w.confidence < mkRat 7 10)).length : ℚ))
        > ((buildWords input.transcription).length : ℚ) * mkRat 1 10
    · simp [hc]
    · simp [hc]

/-- C7 witness: the input with segments tagged speaker 0 and speaker 1 has a
two-entry speaker map and the multiple-speakers flag set. -/
theorem c7_witness :
    (createWtfTranscription c7In "2024-01-15T10:30:00.000Z").quality.multiple_speakers
      = true := by
  exact ((c7_quality_block c7In "2024-01-15T10:30:00.000Z").2.2.1).mpr (by decide)

/-! ### C3 -/

/-- C3: a structurally valid container with zero audio-bearing dialogs makes
the pipeline fail with the no-audio-dialogs message and no per-field details
list, independently of the extraction and backend oracles, while a schema
failure carries the details list. -/
theorem c3_no_audio_dialogs (providerName : String) (maxAudioSizeMb : Nat)
    (wt sd : Option Bool) (language : Option String) (v : Vcon) (now : String)
    (extract : Nat → Dialog → ExtractOutcome)
    (batchTranscribe : List AsrTranscribeRequest → Option (List AsrTranscribeResult))
    (h : audioDialogsOf (normalizeVcon v) = []) :
    transcribeVcon true providerName maxAudioSizeMb extract batchTranscribe wt sd
        language (.valid v) now
      = .failure "No audio dialogs found in VCON" none ∧
    List.IsInfix (String.data "No audio dialogs")
      (String.data "No audio dialogs found in VCON") ∧
    (∀ extract2 batch2,
      transcribeVcon true providerName maxAudioSizeMb extract2 batch2 wt sd language
          (.valid v) now
        = .failure "No audio dialogs found in VCON" none) ∧
    (∀ errs, transcribeVcon true providerName maxAudioSizeMb extract batchTranscribe
        wt sd language (.invalid errs) now = .failure "Invalid VCON format" (some errs)) := by
  have key : ∀ (e : Nat → Dialog → ExtractOutcome)
      (b : List AsrTranscribeRequest → Option (List AsrTranscribeResult)),
      transcribeVcon true providerName maxAudioSizeMb e b wt sd language (.valid v) now
        = .failure "No audio dialogs found in VCON" none := by
    intro e b
    simp [transcribeVcon, parseVcon, h]
  refine ⟨key extract batchTranscribe, by decide, fun e2 b2 => key e2 b2, ?_⟩
  intro errs
  simp [transcribeVcon, parseVcon]

/-- C3 witness: the pipeline on the dialog-free valid container fails with
the no-audio-dialogs message and no details. -/
theorem c3_witness :
    transcribeVcon true "nvidia" 50 nullExtract okBatch none none none
        (.valid c3Vcon) "2024-01-15T10:30:00.000Z"
      = .failure "No audio dialogs found in VCON" none := by
  exact (c3_no_audio_dialogs "nvidia" 50 none none none c3Vcon
    "2024-01-15T10:30:00.000Z" nullExtract okBatch (by decide)).1

/-! ### C4 -/

/-- C4: the batch endpoint returns one record per document aligned to input
position, a failing document contributes its own success-false record with
its error and details without aborting the others, and the summary counts
satisfy total = number of inputs, succeeded = number of success records, and
succeeded + failed = total. -/
theorem c4_batch_isolation {α : Type} (runOne : α → TranscriptionResult)
    (providerOpt : Option String) (vcons : List α)
    (hok : ∀ d ∈ vcons, runOne d ≠ .thrown) :
    ∃ resp, transcribeBatchRoute runOne providerOpt vcons = some resp ∧
      resp.results.length = vcons.length ∧
      (∀ i (hi : i < vcons.length) (hi2 : i < resp.results.length),
        resp.results.get ⟨i, hi2⟩ = recordOf (runOne (vcons.get ⟨i, hi⟩))) ∧
      (∀ i (hi : i < vcons.length) (hi2 : i < resp.results.length) e d,
        runOne (vcons.get ⟨i, hi⟩) = .failure e d →
        resp.results.get ⟨i, hi2⟩
          = { success := false, vcon := none, error := some e, details := d }) ∧
      resp.summary.total = vcons.length ∧
      resp.summary.succeeded = (resp.results.filter fun r => r.success).length ∧
      resp.summary.succeeded + resp.summary.failed = resp.summary.total := by
  have hany : (vcons.any fun d => (runOne d).isThrown) = false := by
    rw [List.any_eq_false]
    intro d hd
    have hne := hok d hd
    cases hr : runOne d with
    | success s => simp [TranscriptionResult.isThrown]
    | failure e det => simp [TranscriptionResult.isThrown]
    | thrown => exact absurd hr hne
  refine ⟨_, by rw [transcribeBatchRoute, if_neg (by simp [hany])], ?_, ?_, ?_, ?_, ?_, ?_⟩
  · simp
  · intro i hi hi2
    simp [List.get_eq_getElem, List.getElem_map]
  · intro i hi hi2 e d hfail
    have : (vcons.map fun d => recordOf (runOne d)).get ⟨i, by simpa using hi⟩
        = recordOf (runOne (vcons.get ⟨i, hi⟩)) := by
      simp [List.get_eq_getElem, List.getElem_map]
    simp only [List.get_eq_getElem] at this hfail ⊢
    rw [this, hfail]
    rfl
  · simp
  · rfl
  · have hle : ((vcons.map fun d => recordOf (runOne d)).filter
        fun r => r.success).length ≤ (vcons.map fun d => recordOf (runOne d)).length :=
      List.length_filter_le _ _
    simp only []
    omega

/-- C4 witness: a batch of two documents, one succeeding and one failing
schema validation, gets a response whose summary counts add up. -/
theorem c4_witness :
    ∃ resp, transcribeBatchRoute c4Run none [0, 1] = some resp ∧
      resp.summary.succeeded + resp.summary.failed = resp.summary.total := by
  obtain ⟨resp, h1, _, _, _, _, _, h7⟩ :=
    c4_batch_isolation c4Run none [0, 1] (by decide)
  exact ⟨resp, h1, h7⟩

/-! ### C6 -/

/-- Length of the built segments list. -/
theorem buildSegments_length (t : AsrTranscribeResult) (ws : List WtfWord) :
    (buildSegments t ws).length = t.segments.length := by
  simp [buildSegments]

/-- Indexing the built segments list yields the record built from the source
segment at the same position. -/
theorem buildSegments_get (t : AsrTranscribeResult) (ws : List WtfWord)
    (i : Nat) (hi : i < (buildSegments t ws).length)
    (hsrc : i < t.segments.length) :
    (buildSegments t ws).get ⟨i, hi⟩
      = { id := i
          start := (t.segments.get ⟨i, hsrc⟩).start
          «end» := (t.segments.get ⟨i, hsrc⟩).«end»
          text := (t.segments.get ⟨i, hsrc⟩).text
          confidence := (t.segments.get ⟨i, hsrc⟩).confidence
          speaker := parsedSpeaker (t.segments.get ⟨i, hsrc⟩).speaker
          words :=
            if ((ws.filter (wordInSegment (t.segments.get ⟨i, hsrc⟩))).map
                WtfWord.id).length > 0
            then some ((ws.filter (wordInSegment (t.segments.get ⟨i, hsrc⟩))).map
                WtfWord.id)
            else none } :=
  get_enum_map _ _ i hi

/-- Membership in the word-id list of a segment is containment of the word
interval in the segment interval. -/
theorem mem_segmentWordIds (ws : List WtfWord) (seg : AsrSegment) (j : Nat) :
    j ∈ (ws.filter (wordInSegment seg)).map WtfWord.id ↔
      ∃ w ∈ ws, w.id = j ∧ seg.start ≤ w.start ∧ w.«end» ≤ seg.«end» := by
  simp only [List.mem_map, List.mem_filter, wordInSegment, decide_eq_true_iff]
  constructor
  · rintro ⟨w, ⟨hmem, hc1, hc2⟩, hid⟩
    exact ⟨w, hmem, hid, hc1, hc2⟩
  · rintro ⟨w, hmem, hid, hc1, hc2⟩
    exact ⟨w, ⟨hmem, hc1, hc2⟩, hid⟩

/-- C6: each canonical segment gets the sequential id equal to its position
and the bounds of the source segment at that position; its word-id list
holds exactly the ids of the already-built words whose closed interval lies
fully inside the segment interval (so boundary-straddling words are
dropped), and the words field is omitted, never an empty list, when no word
is contained. -/
theorem c6_segment_word_containment (input : EnrichmentInput) (now : String)
    (i : Nat) (hi : i < (createWtfTranscription input now).segments.length) :
    ∃ hsrc : i < input.transcription.segments.length,
      ((createWtfTranscription input now).segments.get ⟨i, hi⟩).id = i ∧
      ((createWtfTranscription input now).segments.get ⟨i, hi⟩).start
        = (input.transcription.segments.get ⟨i, hsrc⟩).start ∧
      ((createWtfTranscription input now).segments.get ⟨i, hi⟩).«end»
        = (input.transcription.segments.get ⟨i, hsrc⟩).«end» ∧
      (∀ j, j ∈ (((createWtfTranscription input now).segments.get ⟨i, hi⟩).words).getD [] ↔
        ∃ w ∈ buildWords input.transcription, w.id = j ∧
          (input.transcription.segments.get ⟨i, hsrc⟩).start ≤ w.start ∧
          w.«end» ≤ (input.transcription.segments.get ⟨i, hsrc⟩).«end») ∧
      ((((createWtfTranscription input now).segments.get ⟨i, hi⟩).words) = none ↔
        ∀ w ∈ buildWords input.transcription,
          ¬((input.transcription.segments.get ⟨i, hsrc⟩).start ≤ w.start ∧
            w.«end» ≤ (input.transcription.segments.get ⟨i, hsrc⟩).«end»)) ∧
      (((createWtfTranscription input now).segments.get ⟨i, hi⟩).words ≠ some []) := by
  have hi' : i < (buildSegments input.transcription (buildWords input.transcription)).length := hi
  have hsrc : i < input.transcription.segments.length := by
    rw [buildSegments_length] at hi'
    exact hi'
  refine ⟨hsrc, ?_⟩
  have hget : (createWtfTranscription input now).segments.get ⟨i, hi⟩
      = (buildSegments input.transcription (buildWords input.transcription)).get ⟨i, hi'⟩ := rfl
  rw [hget, buildSegments_get input.transcription (buildWords input.transcription) i hi' hsrc]
  set seg := input.transcription.segments.get ⟨i, hsrc⟩ with hseg
  set ids := ((buildWords input.transcription).filter (wordInSegment seg)).map WtfWord.id
    with hids
  refine ⟨rfl, rfl, rfl, ?_, ?_, ?_⟩
  · intro j
    by_cases hlen : ids.length > 0
    · simp only [if_pos hlen, Option.getD_some]
      exact mem_segmentWordIds _ seg j
    · have hnil : ids = [] := by
        cases hido : ids with
        | nil => rfl
        | cons a l => rw [hido] at hlen; simp at hlen
      simp only [if_neg hlen, Option.getD_none]
      constructor
      · intro hj; cases hj
      · rintro ⟨w, hw, hid, hc1, hc2⟩
        have : j ∈ ids := (mem_segmentWordIds _ seg j).mpr ⟨w, hw, hid, hc1, hc2⟩
        rw [hnil] at this
        cases this
  · by_cases hlen : ids.length > 0
    · simp only [if_pos hlen]
      constructor
      · intro h; cases h
      · intro hnone
        obtain ⟨a, ha⟩ := List.exists_mem_of_length_pos hlen
        obtain ⟨w, hw, hid, hc1, hc2⟩ := (mem_segmentWordIds _ seg a).mp ha
        exact absurd ⟨hc1, hc2⟩ (hnone w hw)
    · simp only [if_neg hlen]
      constructor
      · intro _ w hw hc
        have : w.id ∈ ids := (mem_segmentWordIds _ seg w.id).mpr ⟨w, hw, rfl, hc.1, hc.2⟩
        have hpos : ids.length > 0 := List.length_pos.mpr (List.ne_nil_of_mem this)
        exact absurd hpos hlen
      · intro _; trivial
  · by_cases hlen : ids.length > 0
    · simp only [if_pos hlen]
      intro h
      have : ids = [] := by
        have := Option.some.inj h
        exact this
      rw [this] at hlen
      simp at hlen
    · simp only [if_neg hlen]
      intro h
      cases h

/-- C6 witness: for the input with one segment spanning the single word, the
built segment has id 0 and a non-empty word-id list. -/
theorem c6_witness :
    ∃ hi : 0 < (createWtfTranscription c6In "2024-01-15T10:30:00.000Z").segments.length,
      ((createWtfTranscription c6In "2024-01-15T10:30:00.000Z").segments.get ⟨0, hi⟩).id = 0 ∧
      ((createWtfTranscription c6In "2024-01-15T10:30:00.000Z").segments.get ⟨0, hi⟩).words
        ≠ some [] := by
  have hi : 0 < (createWtfTranscription c6In "2024-01-15T10:30:00.000Z").segments.length := by
    decide
  obtain ⟨hsrc, h1, _, _, _, _, h6⟩ :=
    c6_segment_word_containment c6In "2024-01-15T10:30:00.000Z" 0 hi
  exact ⟨hi, h1, h6⟩

/-! ### C10 -/

/-- C10: word ids are exactly the positions 0..n-1 of the word collection,
segment ids are exactly the positions of the segment collection, the words
field of the record is either omitted or the built collection itself, and
every index in any segment's word-id list points inside the word
collection. -/
theorem c10_id_invariants (input : EnrichmentInput) (now : String) :
    ((buildWords input.transcription).map WtfWord.id
      = List.range (buildWords input.transcription).length) ∧
    ((createWtfTranscription input now).segments.map WtfSegment.id
      = List.range (createWtfTranscription input now).segments.length) ∧
    ((createWtfTranscription input now).words = none ∨
      (createWtfTranscription input now).words = some (buildWords input.transcription)) ∧
    (∀ s ∈ (createWtfTranscription input now).segments, ∀ j ∈ s.words.getD [],
      j < (buildWords input.transcription).length) := by
  have hw : (buildWords input.transcription).map WtfWord.id
      = List.range (buildWords input.transcription).length := by
    unfold buildWords
    cases ht : input.transcription.words with
    | some ws =>
        have := map_proj_enum_map ws (fun n b => mkWtfWord n none b) WtfWord.id
          (fun n b => rfl)
        simpa using this
    | none =>
        have := map_proj_enum_map (segmentNestedWords input.transcription.segments)
          (fun n b => mkWtfWord n b.1 b.2) WtfWord.id (fun n b => rfl)
        simpa using this
  have hbound : ∀ w ∈ buildWords input.transcription,
      w.id < (buildWords input.transcription).length := by
    intro w hmem
    have h1 : w.id ∈ (buildWords input.transcription).map WtfWord.id :=
      List.mem_map_of_mem _ hmem
    rw [hw] at h1
    exact List.mem_range.mp h1
  refine ⟨hw, ?_, ?_, ?_⟩
  · have hs : (createWtfTranscription input now).segments
        = buildSegments input.transcription (buildWords input.transcription) := rfl
    rw [hs]
    unfold buildSegments
    have := map_proj_enum_map input.transcription.segments
      (fun n seg =>
        ({ id := n
           start := seg.start
           «end» := seg.«end»
           text := seg.text
           confidence := seg.confidence
           speaker := parsedSpeaker seg.speaker
           words :=
             if (((buildWords input.transcription).filter (wordInSegment seg)).map
                 WtfWord.id).length > 0
             then some (((buildWords input.transcription).filter (wordInSegment seg)).map
                 WtfWord.id)
             else none } : WtfSegment))
      WtfSegment.id (fun n seg => rfl)
    simpa using this
  · rw [createWtf_words_eq]
    by_cases h : (buildWords input.transcription).length > 0
    · right; rw [if_pos h]
    · left; rw [if_neg h]
  · intro s hs j hj
    have hs' : s ∈ buildSegments input.transcription (buildWords input.transcription) := hs
    unfold buildSegments at hs'
    obtain ⟨p, _, rfl⟩ := List.mem_map.mp hs'
    by_cases hlen : (((buildWords input.transcription).filter (wordInSegment p.2)).map
        WtfWord.id).length > 0
    · simp only [if_pos hlen, Option.getD_some] at hj
      obtain ⟨w, hwmem, hid, _, _⟩ := (mem_segmentWordIds _ p.2 j).mp hj
      rw [← hid]
      exact hbound w hwmem
    · simp only [if_neg hlen, Option.getD_none] at hj
      cases hj

/-- C10 witness: on the concrete input the word ids enumerate the positions
and the single built segment holds index 0, which is inside the one-word
collection. -/
theorem c10_witness :
    (buildWords c10In.transcription).map WtfWord.id
      = List.range (buildWords c10In.transcription).length ∧
    (0 : Nat) < (buildWords c10In.transcription).length := by
  obtain ⟨h1, _, _, h4⟩ := c10_id_invariants c10In "2024-01-15T10:30:00.000Z"
  exact ⟨h1, h4 c6Seg (by decide) 0 (by decide)⟩

/-! ### C2 -/

/-- Enumerating after dropping the first components agrees with enumerating
first and then erasing the speaker. -/
theorem enumFrom_map_snd_mk (l : List (Option (Option Int) × AsrWord)) (n : Nat) :
    ((l.map Prod.snd).enumFrom n).map (fun p => mkWtfWord p.1 none p.2)
      = ((l.enumFrom n).map fun p => mkWtfWord p.1 p.2.1 p.2.2).map
          fun w => { w with speaker := none } := by
  induction l generalizing n with
  | nil => rfl
  | cons x xs ih =>
      simp only [List.map_cons, List.enumFrom_cons, ih]
      rfl

/-- Building words from the pre-flattened variant erases the inherited
speaker labels but leaves everything else unchanged. -/
theorem buildWords_preflattened (t : AsrTranscribeResult) (h : t.words = none) :
    buildWords { t with words := some (flattenedNestedWords t) }
      = (buildWords t).map fun w => { w with speaker := none } := by
  have hl : buildWords { t with words := some (flattenedNestedWords t) }
      = (flattenedNestedWords t).enum.map fun p => mkWtfWord p.1 none p.2 := rfl
  have hr : buildWords t
      = (segmentNestedWords t.segments).enum.map fun p => mkWtfWord p.1 p.2.1 p.2.2 := by
    unfold buildWords
    rw [h]
  rw [hl, hr]
  unfold flattenedNestedWords
  exact enumFrom_map_snd_mk (segmentNestedWords t.segments) 0

/-- Second components of enumerated entries are members of the list. -/
theorem snd_mem_of_mem_enumFrom {β : Type} {p : Nat × β} :
    ∀ (l : List β) (n : Nat), p ∈ l.enumFrom n → p.2 ∈ l := by
  intro l
  induction l with
  | nil => intro n h; cases h
  | cons x xs ih =>
      intro n h
      rw [List.enumFrom_cons] at h
      rcases List.mem_cons.mp h with heq | h2
      · rw [heq]
        exact List.mem_cons_self x xs
      · exact List.mem_cons_of_mem _ (ih (n + 1) h2)

/-- When no segment carries a speaker label, no built word carries one. -/
theorem buildWords_speaker_none (t : AsrTranscribeResult) (h : t.words = none)
    (hsp : ∀ seg ∈ t.segments, parsedSpeaker seg.speaker = none) :
    ∀ w ∈ buildWords t, w.speaker = none := by
  intro w hw
  have hw' : w ∈ (segmentNestedWords t.segments).enum.map
      fun p => mkWtfWord p.1 p.2.1 p.2.2 := by
    have hr : buildWords t
        = (segmentNestedWords t.segments).enum.map fun p => mkWtfWord p.1 p.2.1 p.2.2 := by
      unfold buildWords
      rw [h]
    rw [← hr]
    exact hw
  obtain ⟨p, hp, rfl⟩ := List.mem_map.mp hw'
  have hmem : p.2 ∈ segmentNestedWords t.segments :=
    snd_mem_of_mem_enumFrom _ 0 hp
  unfold segmentNestedWords at hmem
  obtain ⟨seg, hseg, hin⟩ := List.mem_flatMap.mp hmem
  cases hws : seg.words with
  | some ws =>
      rw [hws] at hin
      obtain ⟨w0, _, hpair⟩ := List.mem_map.mp hin
      have h1 : p.2.1 = parsedSpeaker seg.speaker := by
        rw [← hpair]
      rw [show (mkWtfWord p.1 p.2.1 p.2.2).speaker = p.2.1 from rfl, h1]
      exact hsp seg hseg
  | none =>
      rw [hws] at hin
      cases hin

/-- C2 (amended): enriching the pre-flattened variant produces the same
sequentially-id word collection except that each word's inherited segment
speaker label is erased; when no segment carries a speaker label the two
collections coincide exactly. -/
theorem c2_flatten_roundtrip (input : EnrichmentInput) (now : String)
    (h : input.transcription.words = none) :
    ((createWtfTranscription
        { input with transcription :=
            { input.transcription with
              words := some (flattenedNestedWords input.transcription) } } now).words
      = ((createWtfTranscription input now).words).map
          (List.map fun w => { w with speaker := none })) ∧
    ((∀ seg ∈ input.transcription.segments, parsedSpeaker seg.speaker = none) →
      (createWtfTranscription
          { input with transcription :=
              { input.transcription with
                words := some (flattenedNestedWords input.transcription) } } now).words
        = (createWtfTranscription input now).words) := by
  have hb : buildWords ({ input with transcription :=
        { input.transcription with
          words := some (flattenedNestedWords input.transcription) } }
          : EnrichmentInput).transcription
      = (buildWords input.transcription).map fun w => { w with speaker := none } :=
    buildWords_preflattened input.transcription h
  have hlen : (buildWords ({ input with transcription :=
        { input.transcription with
          words := some (flattenedNestedWords input.transcription) } }
          : EnrichmentInput).transcription).length
      = (buildWords input.transcription).length := by
    rw [hb, List.length_map]
  constructor
  · rw [createWtf_words_eq, createWtf_words_eq]
    by_cases hpos : (buildWords input.transcription).length > 0
    · rw [if_pos hpos, if_pos (by rw [hlen]; exact hpos)]
      rw [Option.map_some', hb]
    · rw [if_neg hpos, if_neg (by rw [hlen]; exact hpos)]
      rfl
  · intro hsp
    rw [createWtf_words_eq, createWtf_words_eq]
    have hid : (buildWords input.transcription).map (fun w => { w with speaker := none })
        = buildWords input.transcription := by
      have : ∀ w ∈ buildWords input.transcription,
          ({ w with speaker := none } : WtfWord) = w := by
        intro w hw
        have hs := buildWords_speaker_none input.transcription h hsp w hw
        cases w
        simp only at hs
        rw [hs]
      rw [List.map_congr_left this, List.map_id']
    by_cases hpos : (buildWords input.transcription).length > 0
    · rw [if_pos hpos, if_pos (by rw [hlen]; exact hpos)]
      rw [hb, hid]
    · rw [if_neg hpos, if_neg (by rw [hlen]; exact hpos)]

/-- C2 witness for the amended claim: the pre-flattened variant of c2In
yields the same words up to the erased inherited speaker. -/
theorem c2_witness :
    (createWtfTranscription
        { c2In with transcription :=
            { c2In.transcription with
              words := some (flattenedNestedWords c2In.transcription) } }
        "2024-01-15T10:30:00.000Z").words
      = ((createWtfTranscription c2In "2024-01-15T10:30:00.000Z").words).map
          (List.map fun w => { w with speaker := none }) := by
  exact (c2_flatten_roundtrip c2In "2024-01-15T10:30:00.000Z" (by decide)).1

/-- C2 counterexample: with a speaker-tagged segment the claimed equality of
word collections fails, because the segment-flattened words inherit the
speaker label while pre-flattened top-level words cannot carry one. -/
theorem c2_counterexample :
    (createWtfTranscription
        { c2In with transcription :=
            { c2In.transcription with
              words := some (flattenedNestedWords c2In.transcription) } }
        "2024-01-15T10:30:00.000Z").words
      ≠ (createWtfTranscription c2In "2024-01-15T10:30:00.000Z").words := by
  decide

/-! ### C8 -/

/-- Confidence of the NVIDIA translation, unfolded. -/
theorem nvidia_confidence_eq (dm : String) (resp : NvidiaTranscribeResponse) (pt : ℚ) :
    (NvidiaAsrProvider.transformResponse dm resp pt).confidence
      = if resp.confidence.getD 0 = 0 ∧ resp.segments.getD [] ≠ [] then
          ((resp.segments.getD []).map NvidiaSegment.confidence).sum
            / ((resp.segments.getD []).length : ℚ)
        else resp.confidence.getD 0 := rfl

/-- Segments of the Groq translation, unfolded. -/
theorem groq_segments_eq (m : String) (exp : ℚ → ℚ) (resp : GroqVerboseResponse)
    (pt : ℚ) :
    (GroqAsrProvider.transformResponse m exp resp pt).segments
      = (resp.segments.map (List.map fun seg =>
          ({ text := seg.text.trim
             start := seg.start
             «end» := seg.«end»
             confidence := min (exp seg.avg_logprob) 1
             speaker := none
             words := (resp.words.map (List.map fun w =>
               ({ word := w.word
                  start := w.start
                  «end» := w.«end»
                  confidence := mkRat 95 100 } : AsrWord))).map
               (List.filter fun w => decide (w.start ≥ seg.start ∧ w.«end» ≤ seg.«end»)) }
            : AsrSegment))).getD [] := rfl

/-- Overall confidence of the Groq translation, unfolded. -/
theorem groq_confidence_eq (m : String) (exp : ℚ → ℚ) (resp : GroqVerboseResponse)
    (pt : ℚ) :
    (GroqAsrProvider.transformResponse m exp resp pt).confidence
      = if (GroqAsrProvider.transformResponse m exp resp pt).segments.length > 0 then
          ((GroqAsrProvider.transformResponse m exp resp pt).segments.map
            AsrSegment.confidence).sum
          / (((GroqAsrProvider.transformResponse m exp resp pt).segments.length) : ℚ)
        else mkRat 95 100 := rfl

/-- C8 (amended): the translation takes the reported overall confidence when
the response reports a nonzero one; otherwise, with segments present, the
overall confidence is the unweighted average of the per-segment confidences;
for the groq backend each per-segment confidence is derived from that
segment's log-probability as min(exp(avg_logprob), 1). -/
theorem c8_confidence_derivation :
    (∀ (dm : String) (resp : NvidiaTranscribeResponse) (pt c : ℚ),
       resp.confidence = some c → c ≠ 0 →
       (NvidiaAsrProvider.transformResponse dm resp pt).confidence = c) ∧
    (∀ (dm : String) (resp : NvidiaTranscribeResponse) (pt : ℚ),
       (resp.confidence = none ∨ resp.confidence = some 0) →
       resp.segments.getD [] ≠ [] →
       (NvidiaAsrProvider.transformResponse dm resp pt).confidence
         = ((resp.segments.getD []).map NvidiaSegment.confidence).sum
             / ((resp.segments.getD []).length : ℚ)) ∧
    (∀ (m : String) (exp : ℚ → ℚ) (resp : GroqVerboseResponse) (pt : ℚ),
       (GroqAsrProvider.transformResponse m exp resp pt).segments.map
           AsrSegment.confidence
         = (resp.segments.getD []).map fun seg => min (exp seg.avg_logprob) 1) ∧
    (∀ (m : String) (exp : ℚ → ℚ) (resp : GroqVerboseResponse) (pt : ℚ),
       (GroqAsrProvider.transformResponse m exp resp pt).segments ≠ [] →
       (GroqAsrProvider.transformResponse m exp resp pt).confidence
         = ((GroqAsrProvider.transformResponse m exp resp pt).segments.map
             AsrSegment.confidence).sum
           / (((GroqAsrProvider.transformResponse m exp resp pt).segments.length) : ℚ)) := by
  refine ⟨?_, ?_, ?_, ?_⟩
  · intro dm resp pt c hc hc0
    rw [nvidia_confidence_eq, hc]
    simp only [Option.getD_some]
    rw [if_neg fun hcontra => hc0 hcontra.1]
  · intro dm resp pt hrep hseg
    rcases hrep with h | h
    · rw [nvidia_confidence_eq, h]
      simp only [Option.getD_none]
      rw [if_pos ⟨by simp, hseg⟩]
    · rw [nvidia_confidence_eq, h]
      simp only [Option.getD_some]
      rw [if_pos ⟨by simp, hseg⟩]
  · intro m exp resp pt
    rw [groq_segments_eq]
    cases hr : resp.segments with
    | none => rfl
    | some segs =>
        simp only [Option.map_some', Option.getD_some, List.map_map]
        rfl
  · intro m exp resp pt hne
    rw [groq_confidence_eq, if_pos (List.length_pos.mpr hne)]

/-- C8 witness: a response reporting confidence one half keeps it, and the
groq translation of a one-segment response takes each segment confidence
from the log-probability. -/
theorem c8_witness :
    (NvidiaAsrProvider.transformResponse "m" c8NvResp 0).confidence = mkRat 1 2 ∧
    (GroqAsrProvider.transformResponse "m" (fun x => x) c8GroqResp 0).segments.map
        AsrSegment.confidence
      = (c8GroqResp.segments.getD []).map fun seg => min seg.avg_logprob 1 := by
  constructor
  · exact c8_confidence_derivation.1 "m" c8NvResp 0 (mkRat 1 2) rfl (by decide)
  · exact c8_confidence_derivation.2.2.1 "m" (fun x => x) c8GroqResp 0

/-- C8 counterexample: a response that reports confidence zero does not keep
the reported value; with one segment of confidence one the translated
overall confidence is one, not the reported zero. -/
theorem c8_counterexample :
    c8ZeroResp.confidence = some 0 ∧
    (NvidiaAsrProvider.transformResponse "m" c8ZeroResp 0).confidence = 1 ∧
    (1 : ℚ) ≠ 0 := by
  refine ⟨rfl, ?_, by norm_num⟩
  have h1 : c8ZeroResp.confidence.getD 0 = 0 := rfl
  have h2 : c8ZeroResp.segments.getD []
      = [{ text := "x", start_time := 0, end_time := 1,
           confidence := 1, speaker := none, words := none }] := rfl
  rw [nvidia_confidence_eq, h1, h2, if_pos ⟨rfl, by simp⟩]
  norm_num

/-! ### C1 -/

/-- Indices of the audio-bearing dialog selection are strictly increasing. -/
theorem audioDialogsOf_sorted (v : NormalizedVcon) :
    ((audioDialogsOf v).map Prod.fst).Pairwise (· < ·) := by
  have h1 : List.Sublist (audioDialogsOf v) v.dialog.enum := List.filter_sublist _
  have h2 : List.Sublist ((audioDialogsOf v).map Prod.fst)
      (v.dialog.enum.map Prod.fst) := h1.map Prod.fst
  rw [List.enum_map_fst] at h2
  exact (List.pairwise_lt_range _).sublist h2

/-- The extracted entries of one loop iteration: none, or exactly one with
the processed index. -/
theorem extractOne_extracted (mb : Nat) (ex : Nat → Dialog → ExtractOutcome)
    (idx : Nat) (d : Dialog) :
    (extractOne mb ex idx d).extracted = []
      ∨ ∃ buf mt, (extractOne mb ex idx d).extracted = [⟨idx, buf, mt, d.duration⟩] := by
  unfold extractOne
  by_cases h1 : ¬ isAudioDialog d
  · left; rw [if_pos h1]
  · rw [if_neg h1]
    cases hx : ex idx d with
    | thrown m => left; rfl
    | nothing => left; rfl
    | ok buf mt =>
        by_cases h2 : buf.length > mb * 1024 * 1024
        · left
          show (if buf.length > mb * 1024 * 1024 then
              ({ extracted := []
                 errors := [⟨idx, "Audio exceeds maximum size of " ++ toString mb ++ "MB"⟩]
                 skipped := [] } : ExtractionResult)
            else
              ({ extracted := [⟨idx, buf, mt, d.duration⟩]
                 errors := []
                 skipped := [] } : ExtractionResult)).extracted = []
          rw [if_pos h2]
        · right
          refine ⟨buf, mt, ?_⟩
          show (if buf.length > mb * 1024 * 1024 then
              ({ extracted := []
                 errors := [⟨idx, "Audio exceeds maximum size of " ++ toString mb ++ "MB"⟩]
                 skipped := [] } : ExtractionResult)
            else
              ({ extracted := [⟨idx, buf, mt, d.duration⟩]
                 errors := []
                 skipped := [] } : ExtractionResult)).extracted
            = [⟨idx, buf, mt, d.duration⟩]
          rw [if_neg h2]

/-- The extracted dialog indices form a sublist of the processed dialog
indices, in order. -/
theorem extracted_indices_sublist (mb : Nat) (ex : Nat → Dialog → ExtractOutcome) :
    ∀ dialogs : List (Nat × Dialog),
      List.Sublist
        ((extractAudioFromDialogs mb ex dialogs).extracted.map ExtractedAudio.dialogIndex)
        (dialogs.map Prod.fst) := by
  intro dialogs
  induction dialogs with
  | nil => simp [extractAudioFromDialogs]
  | cons hd tl ih =>
      obtain ⟨idx, d⟩ := hd
      have hstep : (extractAudioFromDialogs mb ex ((idx, d) :: tl)).extracted
          = (extractOne mb ex idx d).extracted
            ++ (extractAudioFromDialogs mb ex tl).extracted := rfl
      rw [hstep, List.map_append, List.map_cons]
      rcases extractOne_extracted mb ex idx d with h | ⟨buf, mt, h⟩
      · rw [h, List.map_nil, List.nil_append]
        exact ih.cons idx
      · rw [h, List.map_cons, List.map_nil]
        exact ih.cons₂ idx

/-- Analysis array of the enriched container, unfolded. -/
theorem enrich_analysis_eq (n : NormalizedVcon) (es : List EnrichmentInput)
    (now : String) :
    (enrichVconWithTranscriptions n es now).analysis
      = n.analysis ++ es.map (fun input =>
          createWtfAnalysis input.dialogIndex (createWtfTranscription input now)
            input.provider input.model) := rfl

/-- Mapping a constant function gives a replicated list. -/
theorem map_const_replicate {β γ : Type} (l : List β) (c : γ) :
    l.map (fun _ => c) = List.replicate l.length c := by
  induction l with
  | nil => rfl
  | cons x xs ih => simp [List.replicate_succ, ih]

/-- Types of the analysis entries built from a zip are all the fixed
wtf_transcription tag. -/
theorem zip_analyses_types (now : String)
    (l : List (ExtractedAudio × AsrTranscribeResult)) :
    ((l.map fun p =>
        ({ dialogIndex := p.1.dialogIndex
           transcription := p.2
           provider := p.2.provider
           model := p.2.model
           audioDuration := p.1.duration } : EnrichmentInput)).map fun input =>
          createWtfAnalysis input.dialogIndex (createWtfTranscription input now)
            input.provider input.model).map Analysis.type
      = List.replicate l.length "wtf_transcription" := by
  rw [List.map_map, List.map_map]
  exact map_const_replicate l "wtf_transcription"

/-- Dialog references of the analysis entries built from a zip are the
extracted dialog indices. -/
theorem zip_analyses_dialogs (now : String)
    (l : List (ExtractedAudio × AsrTranscribeResult)) :
    ((l.map fun p =>
        ({ dialogIndex := p.1.dialogIndex
           transcription := p.2
           provider := p.2.provider
           model := p.2.model
           audioDuration := p.1.duration } : EnrichmentInput)).map fun input =>
          createWtfAnalysis input.dialogIndex (createWtfTranscription input now)
            input.provider input.model).map Analysis.dialog
      = (l.map Prod.fst).map fun a => some (Sum.inl a.dialogIndex) := by
  rw [List.map_map, List.map_map, List.map_map]
  rfl

/-- Shape of the analysis array after enriching from an index-aligned zip of
extracted audio and backend results. -/
theorem enrich_from_zip_analysis (n : NormalizedVcon) (ex : List ExtractedAudio)
    (rs : List AsrTranscribeResult) (now : String) (hlen : rs.length = ex.length) :
    ((enrichVconWithTranscriptions n ((ex.zip rs).map fun p =>
        ({ dialogIndex := p.1.dialogIndex
           transcription := p.2
           provider := p.2.provider
           model := p.2.model
           audioDuration := p.1.duration } : EnrichmentInput)) now).analysis.length
      = n.analysis.length + ex.length) ∧
    ((enrichVconWithTranscriptions n ((ex.zip rs).map fun p =>
        ({ dialogIndex := p.1.dialogIndex
           transcription := p.2
           provider := p.2.provider
           model := p.2.model
           audioDuration := p.1.duration } : EnrichmentInput)) now).analysis.take
        n.analysis.length = n.analysis) ∧
    (((enrichVconWithTranscriptions n ((ex.zip rs).map fun p =>
        ({ dialogIndex := p.1.dialogIndex
           transcription := p.2
           provider := p.2.provider
           model := p.2.model
           audioDuration := p.1.duration } : EnrichmentInput)) now).analysis.drop
        n.analysis.length).map Analysis.type
      = List.replicate ex.length "wtf_transcription") ∧
    (((enrichVconWithTranscriptions n ((ex.zip rs).map fun p =>
        ({ dialogIndex := p.1.dialogIndex
           transcription := p.2
           provider := p.2.provider
           model := p.2.model
           audioDuration := p.1.duration } : EnrichmentInput)) now).analysis.drop
        n.analysis.length).map Analysis.dialog
      = ex.map fun a => some (Sum.inl a.dialogIndex)) ∧
    ((enrichVconWithTranscriptions n ((ex.zip rs).map fun p =>
        ({ dialogIndex := p.1.dialogIndex
           transcription := p.2
           provider := p.2.provider
           model := p.2.model
           audioDuration := p.1.duration } : EnrichmentInput)) now).updated_at
      = some now) := by
  have hziplen : (ex.zip rs).length = ex.length := by
    rw [List.length_zip, hlen, Nat.min_self]
  have hmapfst : (ex.zip rs).map Prod.fst = ex :=
    List.map_fst_zip ex rs (le_of_eq hlen.symm)
  rw [enrich_analysis_eq]
  have hnewlen : (((ex.zip rs).map fun p =>
      ({ dialogIndex := p.1.dialogIndex
         transcription := p.2
         provider := p.2.provider
         model := p.2.model
         audioDuration := p.1.duration } : EnrichmentInput)).map fun input =>
        createWtfAnalysis input.dialogIndex (createWtfTranscription input now)
          input.provider input.model).length = ex.length := by
    rw [List.length_map, List.length_map, hziplen]
  refine ⟨?_, ?_, ?_, ?_, rfl⟩
  · rw [List.length_append, hnewlen]
  · rw [List.take_left]
  · rw [List.drop_left, zip_analyses_types, hziplen]
  · rw [List.drop_left, zip_analyses_dialogs, hmapfst]

/-- C1 (amended): with a configured provider, a structurally valid container
holding at least one audio-bearing dialog, at least one dialog whose audio
extracts successfully, and a backend answering every request with one result
per request, the pipeline succeeds; the output analysis array is the input
array with one new wtf_transcription entry per successfully extracted dialog
appended after it, in strictly increasing dialog-index order, and updated_at
is stamped with the enrichment instant. -/
theorem c1_pipeline_analysis (providerName : String) (maxAudioSizeMb : Nat)
    (extract : Nat → Dialog → ExtractOutcome)
    (batchTranscribe : List AsrTranscribeRequest → Option (List AsrTranscribeResult))
    (wt sd : Option Bool) (language : Option String) (v : Vcon) (now : String)
    (haudio : audioDialogsOf (normalizeVcon v) ≠ [])
    (hext : (extractAudioFromDialogs maxAudioSizeMb extract
        (audioDialogsOf (normalizeVcon v))).extracted ≠ [])
    (hreach : ∀ reqs, ∃ rs, batchTranscribe reqs = some rs ∧ rs.length = reqs.length) :
    ∃ (extr : ExtractionResult) (out : TranscriptionSuccess),
      extractAudioFromDialogs maxAudioSizeMb extract (audioDialogsOf (normalizeVcon v))
        = extr ∧
      transcribeVcon true providerName maxAudioSizeMb extract batchTranscribe wt sd
          language (.valid v) now = .success out ∧
      out.vcon.analysis.length
        = (normalizeVcon v).analysis.length + extr.extracted.length ∧
      out.vcon.analysis.take (normalizeVcon v).analysis.length
        = (normalizeVcon v).analysis ∧
      ((out.vcon.analysis.drop (normalizeVcon v).analysis.length).map Analysis.type
        = List.replicate extr.extracted.length "wtf_transcription") ∧
      ((out.vcon.analysis.drop (normalizeVcon v).analysis.length).map Analysis.dialog
        = extr.extracted.map fun a => some (Sum.inl a.dialogIndex)) ∧
      (extr.extracted.map ExtractedAudio.dialogIndex).Pairwise (· < ·) ∧
      out.vcon.updated_at = some now := by
  obtain ⟨rs, hrs, hlen⟩ := hreach
    ((extractAudioFromDialogs maxAudioSizeMb extract
      (audioDialogsOf (normalizeVcon v))).extracted.map fun a =>
      ({ audioBuffer := a.buffer
         mediatype := a.mediatype
         language := language
         options :=
           { wordTimestamps := wt.getD true
             speakerDiarization := sd.getD false
             punctuation := true } } : AsrTranscribeRequest))
  have hlen2 : rs.length = (extractAudioFromDialogs maxAudioSizeMb extract
      (audioDialogsOf (normalizeVcon v))).extracted.length := by
    rw [hlen, List.length_map]
  have haudio' : ¬ (audioDialogsOf (normalizeVcon v)).length = 0 := by
    simpa [List.length_eq_zero] using haudio
  have hext' : ¬ (extractAudioFromDialogs maxAudioSizeMb extract
      (audioDialogsOf (normalizeVcon v))).extracted.length = 0 := by
    simpa [List.length_eq_zero] using hext
  have hlen' : ¬ rs.length < (extractAudioFromDialogs maxAudioSizeMb extract
      (audioDialogsOf (normalizeVcon v))).extracted.length := by
    rw [hlen2]
    omega
  have hrun : transcribeVcon true providerName maxAudioSizeMb extract batchTranscribe
      wt sd language (.valid v) now
      = .success
          { vcon := enrichVconWithTranscriptions (normalizeVcon v)
              (((extractAudioFromDialogs maxAudioSizeMb extract
                  (audioDialogsOf (normalizeVcon v))).extracted.zip rs).map fun p =>
                ({ dialogIndex := p.1.dialogIndex
                   transcription := p.2
                   provider := p.2.provider
                   model := p.2.model
                   audioDuration := p.1.duration } : EnrichmentInput)) now
            stats :=
              { dialogsProcessed :=
                  (((extractAudioFromDialogs maxAudioSizeMb extract
                      (audioDialogsOf (normalizeVcon v))).extracted.zip rs).map fun p =>
                    ({ dialogIndex := p.1.dialogIndex
                       transcription := p.2
                       provider := p.2.provider
                       model := p.2.model
                       audioDuration := p.1.duration } : EnrichmentInput)).length
                dialogsSkipped := (extractAudioFromDialogs maxAudioSizeMb extract
                  (audioDialogsOf (normalizeVcon v))).skipped.length
                dialogsFailed := (extractAudioFromDialogs maxAudioSizeMb extract
                  (audioDialogsOf (normalizeVcon v))).errors.length
                provider := providerName
                model := (((extractAudioFromDialogs maxAudioSizeMb extract
                    (audioDialogsOf (normalizeVcon v))).extracted.zip rs).head?).bind
                  fun p => p.2.model } } := by
    simp only [transcribeVcon, parseVcon]
    rw [if_neg (by simp), if_neg haudio', if_neg hext', hrs]
    dsimp only
    rw [if_neg hlen']
  refine ⟨_, _, rfl, hrun, ?_, ?_, ?_, ?_, ?_, ?_⟩
  · have := (enrich_from_zip_analysis (normalizeVcon v)
      (extractAudioFromDialogs maxAudioSizeMb extract
        (audioDialogsOf (normalizeVcon v))).extracted rs now hlen2).1
    exact this
  · exact (enrich_from_zip_analysis (normalizeVcon v)
      (extractAudioFromDialogs maxAudioSizeMb extract
        (audioDialogsOf (normalizeVcon v))).extracted rs now hlen2).2.1
  · exact (enrich_from_zip_analysis (normalizeVcon v)
      (extractAudioFromDialogs maxAudioSizeMb extract
        (audioDialogsOf (normalizeVcon v))).extracted rs now hlen2).2.2.1
  · exact (enrich_from_zip_analysis (normalizeVcon v)
      (extractAudioFromDialogs maxAudioSizeMb extract
        (audioDialogsOf (normalizeVcon v))).extracted rs now hlen2).2.2.2.1
  · exact (audioDialogsOf_sorted (normalizeVcon v)).sublist
      (extracted_indices_sublist maxAudioSizeMb extract (audioDialogsOf (normalizeVcon v)))
  · exact (enrich_from_zip_analysis (normalizeVcon v)
      (extractAudioFromDialogs maxAudioSizeMb extract
        (audioDialogsOf (normalizeVcon v))).extracted rs now hlen2).2.2.2.2

/-- C1 witness: the pipeline on the extractable one-dialog container with a
reachable backend succeeds, appending one analysis entry and stamping
updated_at. -/
theorem c1_witness :
    ∃ (extr : ExtractionResult) (out : TranscriptionSuccess),
      extractAudioFromDialogs 50 okExtract (audioDialogsOf (normalizeVcon c1Vcon)) = extr ∧
      transcribeVcon true "nvidia" 50 okExtract okBatch none none none
          (.valid c1Vcon) "2024-01-15T10:30:00.000Z" = .success out ∧
      out.vcon.analysis.length
        = (normalizeVcon c1Vcon).analysis.length + extr.extracted.length ∧
      out.vcon.updated_at = some "2024-01-15T10:30:00.000Z" := by
  obtain ⟨extr, out, h1, h2, h3, _, _, _, _, h8⟩ :=
    c1_pipeline_analysis "nvidia" 50 okExtract okBatch none none none c1Vcon
      "2024-01-15T10:30:00.000Z" (by decide) (by decide)
      (fun reqs => ⟨reqs.map fun _ => fixedResult, rfl, by rw [List.length_map]⟩)
  exact ⟨extr, out, h1, h2, h3, h8⟩

/-- C1 counterexample to the claim as stated: a valid container whose single
audio-bearing dialog offers nothing to extract makes the pipeline fail with
an extraction error, not succeed, although the backend is reachable. -/
theorem c1_counterexample :
    transcribeVcon true "nvidia" 50 nullExtract okBatch none none none
        (.valid c1BadVcon) "2024-01-15T10:30:00.000Z"
      = .failure "Failed to extract audio from any dialog"
          (some [⟨"dialog[0]", "Failed to extract audio content"⟩]) := by
  decide

end WtfServer
